import Mathlib

/-!
Shallow embedding of the scoring / interpretation core of `src/app.py`
(equity "health check" dashboard).  Python floats are modelled by `ℚ`,
Python `None` by `Option.none`, and the dynamically typed values of the
raw provider payload by an explicit `PyVal` type.  Definitions follow the
source line by line; theorems below settle the frozen claims C1..C10.
-/

namespace AnalyseActions

/-! ### Numeric helpers: Python `round` and string formatting

Python `round(x, n)` and the `:.Nf` format specifier round to the nearest
multiple of `10^-n`, ties to even (banker's rounding). -/

/-- Round a rational to the nearest integer, ties to even. -/
def roundHalfEven (q : ℚ) : ℤ :=
  if q - Int.floor q < 1/2 then Int.floor q
  else if q - Int.floor q > 1/2 then Int.floor q + 1
  else if Even (Int.floor q) then Int.floor q else Int.floor q + 1

/-- Python `round(q, 1)`. -/
def round1 (q : ℚ) : ℚ := (roundHalfEven (q * 10) : ℚ) / 10

/-- Render `q` as a fixed-point decimal string with `n` digits after the
point, as Python `f"{q:.nf}"` does (nearest, ties to even). -/
def fmtFixed (n : ℕ) (q : ℚ) : String :=
  let m : ℤ := roundHalfEven (q * (10 : ℚ) ^ n)
  let sign := if m < 0 then "-" else ""
  let a := m.natAbs
  let ip := a / 10 ^ n
  let fp := a % 10 ^ n
  let fs := toString fp
  let fs := String.mk (List.replicate (n - fs.length) '0') ++ fs
  sign ++ toString ip ++ "." ++ fs

/-! ### Sector scale table (`SECTOR_SCALES`, `DEFAULT_SCALES`) -/

/-- One row of the sector scale table: the `(low, mid, high)` threshold
triples for the three keyed metrics `"PE"`, `"P/S"`, `"Profit Margin"`. -/
structure ScaleRow where
  peT : ℚ × ℚ × ℚ
  psT : ℚ × ℚ × ℚ
  pmT : ℚ × ℚ × ℚ
deriving DecidableEq

/-- `SECTOR_SCALES` dict of app.py (`None` for sectors not in the dict). -/
def SECTOR_SCALES (s : String) : Option ScaleRow :=
  if s = "Biotechnology" then some ⟨(0, 40, 80), (0, 6, 12), (0, 1/20, 1/10)⟩
  else if s = "Healthcare" then some ⟨(0, 25, 45), (0, 4, 8), (1/20, 1/10, 3/20)⟩
  else if s = "Industrial" then some ⟨(0, 15, 25), (0, 2, 4), (1/20, 1/10, 3/20)⟩
  else if s = "Technology" then some ⟨(0, 30, 60), (0, 5, 12), (1/20, 1/10, 1/5)⟩
  else if s = "Financial Services" then some ⟨(0, 12, 20), (0, 3, 6), (1/20, 3/25, 9/50)⟩
  else none

/-- `DEFAULT_SCALES` of app.py. -/
def DEFAULT_SCALES : ScaleRow := ⟨(0, 20, 40), (0, 3, 6), (1/20, 1/10, 3/20)⟩

/-- `SECTOR_SCALES.get(sector, DEFAULT_SCALES)`; `sector` may be Python
`None` (the default argument of `interpret`). -/
def scalesFor (sector : Option String) : ScaleRow :=
  match sector with
  | some s => (SECTOR_SCALES s).getD DEFAULT_SCALES
  | none => DEFAULT_SCALES

/-! ### `interpret` (app.py lines 98-115) -/

/-- `interpret(val, key, sector)` of app.py: display string, color (the
tier: green / yellow / red / gray), explanation.  `val = none` is the
Python `None` missing sentinel. -/
def interpret (val : Option ℚ) (key : String) (sector : Option String) :
    String × String × String :=
  match val with
  | none => ("N/A", "gray", "Donnée indisponible")
  | some v =>
    let sector_scales := scalesFor sector
    match (if key = "PE" then some sector_scales.peT
           else if key = "P/S" then some sector_scales.psT
           else if key = "Profit Margin" then some sector_scales.pmT
           else none) with
    | none => (toString v, "gray", "")
    | some (_, med, high) =>
      let val_display :=
        if key = "Profit Margin" then fmtFixed 1 (v * 100) ++ "%" else fmtFixed 2 v
      if key = "PE" ∨ key = "P/S" then
        if v < med then (val_display, "green", "Attractif")
        else if v > high then (val_display, "red", "Élevé / spéculatif")
        else (val_display, "yellow", "Dans la norme")
      else if key = "Profit Margin" then
        if v > 1/10 then (val_display, "green", "Marge solide")
        else if v < 0 then (val_display, "red", "Perte / marge négative")
        else (val_display, "yellow", "Marge modeste")
      else (val_display, "gray", "")

/-! ### Financial snapshot as consumed by the scoring engine

The scoring engine only reads numeric fields (or `None`); we model them as
`Option ℚ`.  `sector` is always a string (the normalizer defaults it to
`"Unknown"`). -/

/-- The fields of the snapshot dict that `compute_score` reads. -/
structure Info where
  sector : String
  trailingPE : Option ℚ
  priceToSales : Option ℚ
  trailingEPS : Option ℚ
  revenueGrowth : Option ℚ
  profitMargins : Option ℚ
  currentRatio : Option ℚ
deriving DecidableEq

/-- Python truthiness of an optional float: `None` and `0.0` are falsy. -/
def truthyOpt (v : Option ℚ) : Bool :=
  match v with
  | some x => x != 0
  | none => false

/-- Python truthiness-and-positivity test `eps and eps > 0`. -/
def posOpt (v : Option ℚ) : Bool :=
  match v with
  | some x => decide (0 < x)
  | none => false

/-! ### `compute_score` (app.py lines 117-149) -/

/-- The weight dict chosen by `compute_score` for a trading mode (any
string other than the two named modes selects the balanced default). -/
structure Weights where
  valuation : ℚ
  growth : ℚ
  margins : ℚ
  balance : ℚ
deriving DecidableEq

/-- Weight selection of `compute_score` (app.py lines 119-124). -/
def weightFor (mode : String) : Weights :=
  if mode = "Long terme / Value" then ⟨4, 2, 3, 3⟩
  else if mode = "Court terme / Spéculatif" then ⟨2, 4, 1, 1⟩
  else ⟨3, 3, 2, 2⟩

/-- Color-to-multiplier expression
`(1 if color=="green" else 0.6 if color=="yellow" else 0.2)`. -/
def colorMult (color : String) : ℚ :=
  if color = "green" then 1 else if color = "yellow" then 3/5 else 1/5

/-- Valuation color selection (app.py lines 126-129): note the Python
truthiness tests `if eps and eps>0 and pe` and `elif ps`. -/
def valColor (info : Info) : String :=
  if posOpt info.trailingEPS && truthyOpt info.trailingPE then
    (interpret info.trailingPE "PE" (some info.sector)).2.1
  else if truthyOpt info.priceToSales then
    (interpret info.priceToSales "P/S" (some info.sector)).2.1
  else "yellow"

/-- Growth color: `interpret(info.get('revenueGrowth'), "Profit Margin")`. -/
def growthColor (info : Info) : String :=
  (interpret info.revenueGrowth "Profit Margin" none).2.1

/-- Margins color: `interpret(info.get('profitMargins'), "Profit Margin")`. -/
def marginsColor (info : Info) : String :=
  (interpret info.profitMargins "Profit Margin" none).2.1

/-- Balance color: `interpret(info.get('currentRatio'), "PE")` (no sector
argument, so the default scales are used). -/
def balanceColor (info : Info) : String :=
  (interpret info.currentRatio "PE" none).2.1

/-- The accumulated `score` variable of `compute_score` after the four
`score +=` statements (app.py lines 118-139). -/
def rawScore (info : Info) (mode : String) : ℚ :=
  0 + (weightFor mode).valuation * colorMult (valColor info)
    + (weightFor mode).growth * colorMult (growthColor info)
    + (weightFor mode).margins * colorMult (marginsColor info)
    + (weightFor mode).balance * colorMult (balanceColor info)

/-- `maxscore = sum(weight.values())` (app.py line 141). -/
def maxscore (mode : String) : ℚ :=
  (weightFor mode).valuation + (weightFor mode).growth
    + (weightFor mode).margins + (weightFor mode).balance

/-- `final_score = (score/maxscore)*10` (app.py line 142). -/
def normScore (info : Info) (mode : String) : ℚ :=
  rawScore info mode / maxscore mode * 10

/-- `final_score` after the aggressive bonus (app.py line 143). -/
def finalPre (info : Info) (aggressive : Bool) (mode : String) : ℚ :=
  if aggressive then normScore info mode + 3/10 else normScore info mode

/-- `final_score = max(0, min(10, final_score))` (app.py line 144). -/
def finalClamped (info : Info) (aggressive : Bool) (mode : String) : ℚ :=
  max 0 (min 10 (finalPre info aggressive mode))

/-- Verdict selection on the clamped `final_score` (app.py lines 146-148). -/
def verdictOf (final_score : ℚ) : String × String × String :=
  if 7 ≤ final_score then ("BUY", "green", "Acheter")
  else if 9/2 ≤ final_score then ("WATCH", "yellow", "Surveiller")
  else ("AVOID", "red", "Éviter")

/-- `compute_score(info, aggressive, mode)` of app.py: returns
`(round(final_score,1), verdict)`. -/
def compute_score (info : Info) (aggressive : Bool) (mode : String) :
    ℚ × (String × String × String) :=
  (round1 (finalClamped info aggressive mode),
   verdictOf (finalClamped info aggressive mode))

/-! ### Tier abstraction (spec vocabulary for the color strings) -/

/-- Qualitative tier; the code represents these as the color strings
green / yellow / red / gray. -/
inductive Tier where
  | good
  | neutral
  | bad
  | unknown
deriving DecidableEq

/-- The tier named by a color string (any unexpected string is gray /
unknown). -/
def tierOfColor (c : String) : Tier :=
  if c = "green" then .good
  else if c = "yellow" then .neutral
  else if c = "red" then .bad
  else .unknown

/-- Tier-to-multiplier mapping of the spec: Good→1.0, Neutral→0.6,
Bad or Unknown→0.2. -/
def tierMult : Tier → ℚ
  | .good => 1
  | .neutral => 3/5
  | .bad => 1/5
  | .unknown => 1/5

/-- Valuation tier as the code computes it (tier of `valColor`). -/
def valTier (info : Info) : Tier := tierOfColor (valColor info)

/-- Modelled from the claim wording of C3, for comparison with the code:
valuation tier chosen by presence alone — "if trailing EPS is present and
positive and trailing P/E is present, classify P/E; otherwise, if
Price/Sales is present, classify that; otherwise Neutral".  The code
instead tests Python truthiness, under which a present value `0.0` is
treated like an absent one. -/
def valTierClaimed (info : Info) : Tier :=
  if posOpt info.trailingEPS && info.trailingPE.isSome then
    tierOfColor (interpret info.trailingPE "PE" (some info.sector)).2.1
  else if info.priceToSales.isSome then
    tierOfColor (interpret info.priceToSales "P/S" (some info.sector)).2.1
  else Tier.neutral

/-! ### Raw provider values and the normalizer (`safe`, `fetch_info`) -/

/-- A dynamically typed value in the raw provider dict `t.info`: a float
or int (`pnum`), the float NaN (`pnan`), or a non-numeric value such as a
string (`pstr`). -/
inductive PyVal where
  | pnum (q : ℚ)
  | pnan
  | pstr (s : String)
deriving DecidableEq

/-- Python truthiness of a `PyVal` (NaN is truthy; `0.0` and `""` are
falsy). -/
def pyTruthy : PyVal → Bool
  | .pnum q => q != 0
  | .pnan => true
  | .pstr s => s != ""

/-- Python `x or y` where `x` is a dict lookup that yields `None` when
the key is absent. -/
def pyOr (v : Option PyVal) (dflt : PyVal) : PyVal :=
  match v with
  | some x => if pyTruthy x then x else dflt
  | none => dflt

/-- `safe(val)` of app.py (lines 36-39), at its only used default
`default=None`: `None`, and any float that is NaN, become `None`; every
other value (including `0` and non-float values such as strings) passes
through unchanged. -/
def safe (val : Option PyVal) : Option PyVal :=
  match val with
  | none => none
  | some .pnan => none
  | some v => some v

/-- The snapshot dict built by `fetch_info` (history and calendar, which
are fetched by separate guarded calls, are not modelled). -/
structure Fetched where
  ticker : String
  longName : PyVal
  sector : PyVal
  price : Option PyVal
  marketCap : Option PyVal
  trailingPE : Option PyVal
  priceToSales : Option PyVal
  priceToBook : Option PyVal
  profitMargins : Option PyVal
  operatingMargins : Option PyVal
  revenueGrowth : Option PyVal
  trailingEPS : Option PyVal
  totalCash : Option PyVal
  totalDebt : Option PyVal
  currentRatio : Option PyVal
  bookValue : Option PyVal
  sharesOutstanding : Option PyVal
deriving DecidableEq

/-- `fetch_info(ticker)` of app.py (lines 65-96).  The provider call
`t.info` is modelled by the argument `providerInfo`: `none` means the
call raised (the `except` branch sets `info_raw = {}`); `some raw` means
it returned the dict `raw`, where `raw k = none` when key `k` is absent
(`dict.get` returns `None`). -/
def fetch_info (providerInfo : Option (String → Option PyVal)) (ticker : String) :
    Fetched :=
  let info_raw : String → Option PyVal := fun k =>
    match providerInfo with
    | some raw => raw k
    | none => none
  { ticker := ticker
    longName := pyOr (info_raw "longName") (.pstr ticker)
    sector := pyOr (info_raw "sector") (.pstr "Unknown")
    price := safe (info_raw "currentPrice")
    marketCap := safe (info_raw "marketCap")
    trailingPE := safe (info_raw "trailingPE")
    priceToSales := safe (info_raw "priceToSalesTrailing12Months")
    priceToBook := safe (info_raw "priceToBook")
    profitMargins := safe (info_raw "profitMargins")
    operatingMargins := safe (info_raw "operatingMargins")
    revenueGrowth := safe (info_raw "revenueGrowth")
    trailingEPS := safe (info_raw "trailingEps")
    totalCash := safe (info_raw "totalCash")
    totalDebt := safe (info_raw "totalDebt")
    currentRatio := safe (info_raw "currentRatio")
    bookValue := safe (info_raw "bookValue")
    sharesOutstanding := safe (info_raw "sharesOutstanding") }

/-! ### Multi-ticker comparison (app.py tab 5, lines 237-253) -/

/-- One element of the `data` list built in tab 5 (app.py lines 242-247). -/
structure Row where
  ticker : String
  pe : Option PyVal
  sector : PyVal
  price : Option PyVal
deriving DecidableEq

/-- Python `==` on dynamic values, as pandas applies it elementwise in
`df_multi['Sector']==info['sector']`: NaN compares unequal to everything
(itself included), and values of different types compare unequal. -/
def pyEq : PyVal → PyVal → Bool
  | .pnum a, .pnum b => a == b
  | .pstr a, .pstr b => a == b
  | _, _ => false

/-- The `data` loop of tab 5 (app.py lines 238-249): one row appended per
ticker whose fetch returns; a ticker whose fetch raises is swallowed by
`except: pass`.  `fetchr t = .error ()` models a raising fetch. -/
def buildRows (fetchr : String → Except Unit Fetched) (tickers : List String) :
    List Row :=
  tickers.foldl
    (fun data t =>
      match fetchr t with
      | .ok i => data ++ [{ ticker := t, pe := i.trailingPE, sector := i.sector,
                            price := i.price }]
      | .error _ => data)
    []

/-- Tab 5 table (app.py lines 250-253): `df_multi = pd.DataFrame(data)`,
then `df_multi = df_multi[df_multi['Sector']==info['sector']]` when the
sector-filter checkbox is on.  A DataFrame built from an empty list has
no `Sector` column, so on an empty `data` the filtering line raises
`KeyError` — modelled as `.error ()`. -/
def tab5Table (fetchr : String → Except Unit Fetched) (tickers : List String)
    (compare_sector : Bool) (refSector : PyVal) : Except Unit (List Row) :=
  let data := buildRows fetchr tickers
  if compare_sector then
    if data.isEmpty then .error ()
    else .ok (data.filter fun r => pyEq r.sector refSector)
  else .ok data

/-! ### Helper lemmas about `interpret` -/

lemma interpret_PE (v : ℚ) (sector : Option String) :
    interpret (some v) "PE" sector =
      (if v < (scalesFor sector).peT.2.1 then (fmtFixed 2 v, "green", "Attractif")
       else if v > (scalesFor sector).peT.2.2 then
         (fmtFixed 2 v, "red", "Élevé / spéculatif")
       else (fmtFixed 2 v, "yellow", "Dans la norme")) := rfl

lemma interpret_PS (v : ℚ) (sector : Option String) :
    interpret (some v) "P/S" sector =
      (if v < (scalesFor sector).psT.2.1 then (fmtFixed 2 v, "green", "Attractif")
       else if v > (scalesFor sector).psT.2.2 then
         (fmtFixed 2 v, "red", "Élevé / spéculatif")
       else (fmtFixed 2 v, "yellow", "Dans la norme")) := rfl

lemma interpret_PM (v : ℚ) (sector : Option String) :
    interpret (some v) "Profit Margin" sector =
      (if v > 1/10 then (fmtFixed 1 (v * 100) ++ "%", "green", "Marge solide")
       else if v < 0 then (fmtFixed 1 (v * 100) ++ "%", "red", "Perte / marge négative")
       else (fmtFixed 1 (v * 100) ++ "%", "yellow", "Marge modeste")) := rfl

/-! ### Claim theorems -/

/-- C6: for every metric key and every sector (including the absent
sector of the default argument), `interpret` applied to the missing
sentinel `None` returns exactly `("N/A", gray, "Donnée indisponible")`
("data unavailable"), before any threshold lookup. -/
theorem c6_missing_sentinel :
    ∀ (key : String) (sector : Option String),
      interpret none key sector = ("N/A", "gray", "Donnée indisponible") :=
  fun _ _ => rfl

/-- C4: for every non-missing value and sector, `interpret` on keys
`"PE"` and `"P/S"` is green (Good) iff the value is strictly below the
resolved triple's mid threshold, red (Bad) iff strictly above its high
threshold, and yellow (Neutral) otherwise — the tier depends only on the
mid and high components, never on the low bound; values exactly at mid
or at high are Neutral; for sector `"Technology"` (PE triple (0,30,60)),
25 is Good, 45 is Neutral, 65 is Bad. -/
theorem c4_cost_metric_classification :
    (∀ (v : ℚ) (sector : Option String),
      (interpret (some v) "PE" sector).2.1 =
        (if v < (scalesFor sector).peT.2.1 then "green"
         else if v > (scalesFor sector).peT.2.2 then "red" else "yellow")) ∧
    (∀ (v : ℚ) (sector : Option String),
      (interpret (some v) "P/S" sector).2.1 =
        (if v < (scalesFor sector).psT.2.1 then "green"
         else if v > (scalesFor sector).psT.2.2 then "red" else "yellow")) ∧
    (scalesFor (some "Technology")).peT = (0, 30, 60) ∧
    (interpret (some 25) "PE" (some "Technology")).2.1 = "green" ∧
    (interpret (some 45) "PE" (some "Technology")).2.1 = "yellow" ∧
    (interpret (some 65) "PE" (some "Technology")).2.1 = "red" ∧
    (interpret (some 30) "PE" (some "Technology")).2.1 = "yellow" ∧
    (interpret (some 60) "PE" (some "Technology")).2.1 = "yellow" := by
  refine ⟨?_, ?_, rfl, by decide, by decide, by decide, by decide, by decide⟩
  · intro v sector
    rw [interpret_PE]
    split_ifs <;> rfl
  · intro v sector
    rw [interpret_PS]
    split_ifs <;> rfl

/-- C5: for every non-missing value and sector, `interpret` on key
`"Profit Margin"` is green (Good) iff the value is strictly greater than
0.10 and red (Bad) iff strictly less than 0 — fixed absolute thresholds,
independent of the sector argument — and the display renders the value as
a percentage with one decimal place, while the other keyed metrics
(`"PE"`, `"P/S"`) are rendered fixed-point with two decimals; 0.15 is
Good shown `"15.0%"`, -0.02 is Bad shown `"-2.0%"`, 0.03 is Neutral. -/
theorem c5_margin_classification :
    (∀ (v : ℚ) (sector : Option String),
      (interpret (some v) "Profit Margin" sector).2.1 =
        (if v > 1/10 then "green" else if v < 0 then "red" else "yellow")) ∧
    (∀ (v : ℚ) (sector : Option String),
      (interpret (some v) "Profit Margin" sector).1 = fmtFixed 1 (v * 100) ++ "%") ∧
    (∀ (v : ℚ) (sector : Option String),
      (interpret (some v) "PE" sector).1 = fmtFixed 2 v) ∧
    (∀ (v : ℚ) (sector : Option String),
      (interpret (some v) "P/S" sector).1 = fmtFixed 2 v) ∧
    interpret (some (3/20)) "Profit Margin" none = ("15.0%", "green", "Marge solide") ∧
    interpret (some (-1/50)) "Profit Margin" none =
      ("-2.0%", "red", "Perte / marge négative") ∧
    (interpret (some (3/100)) "Profit Margin" none).2.1 = "yellow" := by
  refine ⟨?_, ?_, ?_, ?_, by with_unfolding_all decide, by with_unfolding_all decide,
    by with_unfolding_all decide⟩
  · intro v sector
    rw [interpret_PM]
    split_ifs <;> rfl
  · intro v sector
    rw [interpret_PM]
    split_ifs <;> rfl
  · intro v sector
    rw [interpret_PE]
    split_ifs <;> rfl
  · intro v sector
    rw [interpret_PS]
    split_ifs <;> rfl

lemma colorMult_eq_tierMult (c : String) : colorMult c = tierMult (tierOfColor c) := by
  unfold colorMult tierOfColor
  split_ifs <;> rfl

/-- C1: for every snapshot, aggressive flag and mode, the returned score
is the claimed pipeline: weight row by mode (Long-term/Value 4,2,3,3;
Short-term/Speculative 2,4,1,1; any other mode the balanced 3,3,2,2),
raw score Σ(weight × multiplier), normalized `(raw/Σweights)*10`, +0.3
when aggressive, clamped to [0,10], rounded to one decimal. -/
theorem c1_score_pipeline :
    ∀ (info : Info) (aggressive : Bool) (mode : String),
      (compute_score info aggressive mode).1 =
        round1 (max 0 (min 10 (
          ((weightFor mode).valuation * colorMult (valColor info)
            + (weightFor mode).growth * colorMult (growthColor info)
            + (weightFor mode).margins * colorMult (marginsColor info)
            + (weightFor mode).balance * colorMult (balanceColor info))
          / ((weightFor mode).valuation + (weightFor mode).growth
            + (weightFor mode).margins + (weightFor mode).balance) * 10
          + (if aggressive then 3/10 else 0)))) ∧
      weightFor mode =
        (if mode = "Long terme / Value" then ⟨4, 2, 3, 3⟩
         else if mode = "Court terme / Spéculatif" then ⟨2, 4, 1, 1⟩
         else ⟨3, 3, 2, 2⟩) := by
  intro info aggressive mode
  refine ⟨?_, rfl⟩
  show round1 (max 0 (min 10 (finalPre info aggressive mode))) = _
  have h : finalPre info aggressive mode =
      ((weightFor mode).valuation * colorMult (valColor info)
        + (weightFor mode).growth * colorMult (growthColor info)
        + (weightFor mode).margins * colorMult (marginsColor info)
        + (weightFor mode).balance * colorMult (balanceColor info))
      / ((weightFor mode).valuation + (weightFor mode).growth
        + (weightFor mode).margins + (weightFor mode).balance) * 10
      + (if aggressive then 3/10 else 0) := by
    unfold finalPre normScore rawScore maxscore
    cases aggressive <;> simp only [if_true, if_false, Bool.false_eq_true, add_zero] <;> ring
  rw [h]

/-- C2 counterexample: the snapshot below (Technology, EPS 5, P/E 25,
revenue growth -0.10, profit margin 0.15, current ratio 50), scored in
Long terme / Value mode with the aggressive flag, has unrounded clamped
score 209/30 ≈ 6.967, so the code returns score 7.0 with verdict WATCH —
a returned score of exactly 7.0 whose verdict is not BUY, refuting the
claim that the verdict is derived from the returned rounded score. -/
theorem c2_rounded_seven_watch :
    compute_score ⟨"Technology", some 25, none, some 5, some (-1/10), some (3/20), some 50⟩
        true "Long terme / Value" = (7, ("WATCH", "yellow", "Surveiller")) ∧
    finalClamped ⟨"Technology", some 25, none, some 5, some (-1/10), some (3/20), some 50⟩
        true "Long terme / Value" = 209/30 ∧
    ("WATCH", "yellow", "Surveiller") ≠ ("BUY", "green", "Acheter") := by
  refine ⟨by with_unfolding_all decide, by with_unfolding_all decide, by decide⟩

/-- C2 amended: the verdict is computed from the clamped score before
rounding: BUY exactly when that unrounded clamped score is ≥ 7, WATCH
exactly when it is ≥ 4.5 and < 7, AVOID exactly when it is < 4.5.  (The
returned score is that value rounded to one decimal, and rounding can
cross a verdict boundary, as the counterexample shows.) -/
theorem c2_verdict_from_unrounded :
    ∀ (info : Info) (aggressive : Bool) (mode : String),
      ((compute_score info aggressive mode).2 = ("BUY", "green", "Acheter") ↔
        7 ≤ finalClamped info aggressive mode) ∧
      ((compute_score info aggressive mode).2 = ("WATCH", "yellow", "Surveiller") ↔
        (9/2 ≤ finalClamped info aggressive mode ∧
          finalClamped info aggressive mode < 7)) ∧
      ((compute_score info aggressive mode).2 = ("AVOID", "red", "Éviter") ↔
        finalClamped info aggressive mode < 9/2) := by
  intro info aggressive mode
  have hv : (compute_score info aggressive mode).2 =
      verdictOf (finalClamped info aggressive mode) := rfl
  rw [hv]
  set f := finalClamped info aggressive mode with hf
  unfold verdictOf
  split_ifs with h1 h2
  · refine ⟨iff_of_true rfl h1, iff_of_false (by decide) ?_, iff_of_false (by decide) ?_⟩
    · rintro ⟨-, hlt⟩
      linarith
    · intro hlt
      linarith
  · refine ⟨iff_of_false (by decide) h1, iff_of_true rfl ⟨h2, not_le.mp h1⟩,
      iff_of_false (by decide) (not_lt.mpr h2)⟩
  · refine ⟨iff_of_false (by decide) h1, iff_of_false (by decide) ?_,
      iff_of_true rfl (not_le.mp h2)⟩
    rintro ⟨hge, -⟩
    exact h2 hge

/-- C3 counterexample: a snapshot with positive EPS and a present
trailing P/E equal to 0.0 (and no Price/Sales).  The claim's selection
("P/E is present") classifies the P/E: `interpret(0, "PE")` on the
default scales is green/Good, multiplier 1.0.  The code's truthiness test
`if eps and eps>0 and pe` treats the present `0.0` as absent and falls to
the final else, color yellow, multiplier 0.6; the engine returns score
3.2 instead of the claimed 4.4. -/
theorem c3_zero_pe_not_present :
    valTierClaimed ⟨"Unknown", some 0, none, some 1, none, none, none⟩ = Tier.good ∧
    valColor ⟨"Unknown", some 0, none, some 1, none, none, none⟩ = "yellow" ∧
    tierMult Tier.good ≠ colorMult "yellow" ∧
    (compute_score ⟨"Unknown", some 0, none, some 1, none, none, none⟩ false
        "Équilibré").1 = 16/5 := by
  refine ⟨by with_unfolding_all decide, by with_unfolding_all decide,
    by with_unfolding_all decide, by with_unfolding_all decide⟩

/-- C3 amended: the valuation sub-score classifies P/E when trailing EPS
is present and positive and trailing P/E is present and nonzero (Python
truthiness); otherwise classifies Price/Sales when it is present and
nonzero; otherwise Neutral — and every one of the four sub-scores turns
its tier into a multiplier by Good→1.0, Neutral→0.6, Bad or Unknown→0.2. -/
theorem c3_valuation_selection :
    (∀ (info : Info) (mode : String),
      rawScore info mode =
        0 + (weightFor mode).valuation * tierMult (valTier info)
          + (weightFor mode).growth * tierMult (tierOfColor (growthColor info))
          + (weightFor mode).margins * tierMult (tierOfColor (marginsColor info))
          + (weightFor mode).balance * tierMult (tierOfColor (balanceColor info))) ∧
    (∀ info : Info,
      valTier info =
        if posOpt info.trailingEPS && truthyOpt info.trailingPE then
          tierOfColor (interpret info.trailingPE "PE" (some info.sector)).2.1
        else if truthyOpt info.priceToSales then
          tierOfColor (interpret info.priceToSales "P/S" (some info.sector)).2.1
        else Tier.neutral) ∧
    (∀ c : String, colorMult c = tierMult (tierOfColor c)) ∧
    tierMult .good = 1 ∧ tierMult .neutral = 3/5 ∧ tierMult .bad = 1/5 ∧
    tierMult .unknown = 1/5 := by
  refine ⟨?_, ?_, colorMult_eq_tierMult, rfl, rfl, rfl, rfl⟩
  · intro info mode
    unfold rawScore
    rw [colorMult_eq_tierMult, colorMult_eq_tierMult, colorMult_eq_tierMult,
      colorMult_eq_tierMult]
    rfl
  · intro info
    unfold valTier valColor
    split_ifs <;> rfl

/-- C7: the score with the aggressive flag equals the pre-clamp score
without the flag plus exactly 0.3, then clamped to [0,10] and rounded to
one decimal; a pre-clamp value of 9.9 becomes exactly 10.0 and one of 5.0
becomes exactly 5.3, witnessed by a concrete snapshot scoring 5.0 without
the flag and 5.3 with it. -/
theorem c7_aggressive_bonus :
    (∀ (info : Info) (mode : String),
      (compute_score info true mode).1 =
        round1 (max 0 (min 10 (finalPre info false mode + 3/10))) ∧
      finalPre info false mode = normScore info mode) ∧
    round1 (max 0 (min 10 ((99:ℚ)/10 + 3/10))) = 10 ∧
    round1 (max 0 (min 10 ((5:ℚ) + 3/10))) = 53/10 ∧
    (compute_score ⟨"Unknown", none, none, none, some (1/20), none, none⟩ false
        "Court terme / Spéculatif").1 = 5 ∧
    (compute_score ⟨"Unknown", none, none, none, some (1/20), none, none⟩ true
        "Court terme / Spéculatif").1 = 53/10 := by
  refine ⟨fun info mode => ⟨rfl, rfl⟩, by with_unfolding_all decide,
    by with_unfolding_all decide, by with_unfolding_all decide,
    by with_unfolding_all decide⟩

/-- C8 counterexample: a raw payload whose `trailingPE` entry is a
non-numeric string.  `safe` only maps `None` and float NaN to the
sentinel, so the string passes through into the snapshot instead of
becoming the missing sentinel. -/
theorem c8_string_passthrough :
    (fetch_info (some fun k => if k = "trailingPE" then some (.pstr "Infinity") else none)
        "AAPL").trailingPE = some (.pstr "Infinity") ∧
    some (PyVal.pstr "Infinity") ≠ (none : Option PyVal) := by
  exact ⟨rfl, by simp⟩

/-- C8 amended: every field is extracted independently through `safe`,
which maps a missing (`None`) or NaN upstream value — and only those — to
the missing sentinel, never to zero; a legitimate zero is preserved and
remains distinguishable from missing; `longName` and `sector` default to
the ticker symbol and `"Unknown"` when absent (Python `or`); and a failed
provider fetch yields the snapshot with sector `"Unknown"`, price
missing and all metrics missing instead of an error. -/
theorem c8_normalizer :
    (∀ (raw : String → Option PyVal) (ticker : String),
      (fetch_info (some raw) ticker).longName = pyOr (raw "longName") (.pstr ticker) ∧
      (fetch_info (some raw) ticker).sector = pyOr (raw "sector") (.pstr "Unknown") ∧
      (fetch_info (some raw) ticker).price = safe (raw "currentPrice") ∧
      (fetch_info (some raw) ticker).marketCap = safe (raw "marketCap") ∧
      (fetch_info (some raw) ticker).trailingPE = safe (raw "trailingPE") ∧
      (fetch_info (some raw) ticker).priceToSales =
        safe (raw "priceToSalesTrailing12Months") ∧
      (fetch_info (some raw) ticker).priceToBook = safe (raw "priceToBook") ∧
      (fetch_info (some raw) ticker).profitMargins = safe (raw "profitMargins") ∧
      (fetch_info (some raw) ticker).operatingMargins = safe (raw "operatingMargins") ∧
      (fetch_info (some raw) ticker).revenueGrowth = safe (raw "revenueGrowth") ∧
      (fetch_info (some raw) ticker).trailingEPS = safe (raw "trailingEps") ∧
      (fetch_info (some raw) ticker).totalCash = safe (raw "totalCash") ∧
      (fetch_info (some raw) ticker).totalDebt = safe (raw "totalDebt") ∧
      (fetch_info (some raw) ticker).currentRatio = safe (raw "currentRatio") ∧
      (fetch_info (some raw) ticker).bookValue = safe (raw "bookValue") ∧
      (fetch_info (some raw) ticker).sharesOutstanding = safe (raw "sharesOutstanding")) ∧
    safe none = none ∧
    safe (some .pnan) = none ∧
    (∀ q : ℚ, safe (some (.pnum q)) = some (.pnum q)) ∧
    safe (some (.pnum 0)) = some (.pnum 0) ∧
    some (PyVal.pnum 0) ≠ (none : Option PyVal) ∧
    (∀ t : String, pyOr none (.pstr t) = .pstr t) ∧
    (∀ ticker : String,
      fetch_info none ticker =
        { ticker := ticker, longName := .pstr ticker, sector := .pstr "Unknown",
          price := none, marketCap := none, trailingPE := none, priceToSales := none,
          priceToBook := none, profitMargins := none, operatingMargins := none,
          revenueGrowth := none, trailingEPS := none, totalCash := none,
          totalDebt := none, currentRatio := none, bookValue := none,
          sharesOutstanding := none }) := by
  exact ⟨fun raw ticker =>
      ⟨rfl, rfl, rfl, rfl, rfl, rfl, rfl, rfl, rfl, rfl, rfl, rfl, rfl, rfl, rfl, rfl⟩,
    rfl, rfl, fun q => rfl, rfl, by simp, fun t => rfl, fun ticker => rfl⟩

/-- Concrete three-ticker provider for the C9 example: MSFT and GOOGL
fetch successfully (sectors Technology and Communication Services),
BADTICKER raises. -/
def exampleFetcher (t : String) : Except Unit Fetched :=
  if t = "MSFT" then
    .ok (fetch_info (some fun k =>
      if k = "sector" then some (.pstr "Technology")
      else if k = "trailingPE" then some (.pnum 35)
      else if k = "currentPrice" then some (.pnum 400) else none) "MSFT")
  else if t = "GOOGL" then
    .ok (fetch_info (some fun k =>
      if k = "sector" then some (.pstr "Communication Services")
      else if k = "trailingPE" then some (.pnum 28)
      else if k = "currentPrice" then some (.pnum 170) else none) "GOOGL")
  else .error ()

lemma buildRows_eq_filterMap (fetchr : String → Except Unit Fetched)
    (tickers : List String) :
    buildRows fetchr tickers =
      tickers.filterMap (fun t =>
        match fetchr t with
        | .ok i => some { ticker := t, pe := i.trailingPE, sector := i.sector,
                          price := i.price }
        | .error _ => none) := by
  have go : ∀ (ts : List String) (acc : List Row),
      ts.foldl (fun data t =>
        match fetchr t with
        | .ok i => data ++ [{ ticker := t, pe := i.trailingPE, sector := i.sector,
                              price := i.price }]
        | .error _ => data) acc
      = acc ++ ts.filterMap (fun t =>
          match fetchr t with
          | .ok i => some { ticker := t, pe := i.trailingPE, sector := i.sector,
                            price := i.price }
          | .error _ => none) := by
    intro ts
    induction ts with
    | nil => intro acc; simp
    | cons t ts ih =>
      intro acc
      cases h : fetchr t with
      | ok i => simp [List.foldl_cons, List.filterMap_cons, h, ih]
      | error e => simp [List.foldl_cons, List.filterMap_cons, h, ih]
  simpa [buildRows] using go tickers []

/-- C9 counterexample: a basket whose only member's fetch raises, with
the sector filter enabled.  The claim demands the empty row set; the code
builds `pd.DataFrame([])`, which has no `Sector` column, and the
filtering line raises `KeyError` instead of producing a table. -/
theorem c9_all_failed_filter_raises :
    buildRows (fun _ => (.error () : Except Unit Fetched)) ["BADTICKER"] = [] ∧
    tab5Table (fun _ => (.error () : Except Unit Fetched)) ["BADTICKER"] true
      (.pstr "Technology") = .error () ∧
    (∀ rows : List Row, (Except.error () : Except Unit (List Row)) ≠ .ok rows) := by
  exact ⟨rfl, rfl, fun rows h => by cases h⟩

/-- C9 amended: one row (Ticker, P/E, Sector, Price) per successfully
fetched member, in input order, a raising member silently omitted; with
the sector filter on, rows whose sector differs from the reference sector
are excluded after fetching — provided at least one member fetched
successfully, since on an empty row list the filter line raises (the
empty DataFrame has no Sector column).  The MSFT/GOOGL/BADTICKER example
behaves as claimed. -/
theorem c9_aggregation :
    (∀ (fetchr : String → Except Unit Fetched) (tickers : List String),
      buildRows fetchr tickers =
        tickers.filterMap (fun t =>
          match fetchr t with
          | .ok i => some { ticker := t, pe := i.trailingPE, sector := i.sector,
                            price := i.price }
          | .error _ => none)) ∧
    (∀ (fetchr : String → Except Unit Fetched) (tickers : List String)
        (refSector : PyVal),
      tab5Table fetchr tickers false refSector = .ok (buildRows fetchr tickers)) ∧
    (∀ (fetchr : String → Except Unit Fetched) (tickers : List String)
        (refSector : PyVal),
      tab5Table fetchr tickers true refSector =
        (if (buildRows fetchr tickers).isEmpty then .error ()
         else .ok ((buildRows fetchr tickers).filter fun r =>
           pyEq r.sector refSector))) ∧
    tab5Table exampleFetcher ["MSFT", "GOOGL", "BADTICKER"] false (.pstr "Technology") =
      .ok [⟨"MSFT", some (.pnum 35), .pstr "Technology", some (.pnum 400)⟩,
           ⟨"GOOGL", some (.pnum 28), .pstr "Communication Services", some (.pnum 170)⟩] ∧
    tab5Table exampleFetcher ["MSFT", "GOOGL", "BADTICKER"] true (.pstr "Technology") =
      .ok [⟨"MSFT", some (.pnum 35), .pstr "Technology", some (.pnum 400)⟩] := by
  refine ⟨buildRows_eq_filterMap, fun _ _ _ => rfl, fun _ _ _ => rfl,
    by with_unfolding_all rfl, by with_unfolding_all rfl⟩

lemma floor_le_roundHalfEven (q : ℚ) : Int.floor q ≤ roundHalfEven q := by
  unfold roundHalfEven
  split_ifs <;> omega

lemma round1_ge_two {q : ℚ} (h : 2 ≤ q) : 2 ≤ round1 q := by
  unfold round1
  have h1 : (20 : ℤ) ≤ Int.floor (q * 10) := by
    rw [Int.le_floor]
    push_cast
    linarith
  have h2 : (20 : ℤ) ≤ roundHalfEven (q * 10) :=
    le_trans h1 (floor_le_roundHalfEven _)
  have h3 : (20 : ℚ) ≤ (roundHalfEven (q * 10) : ℚ) := by exact_mod_cast h2
  linarith

/-- C10: every color multiplier lies in [0.2, 1], so the normalized score
lies in [2, 10]: the returned score is always at least 2.0; the lower
clamp at 0 is never active (`max 0` is the identity on the clamped
value); and without the aggressive flag the pre-clamp score never
strictly exceeds 10 (`min 10` is the identity). -/
theorem c10_score_lower_bound :
    ∀ (info : Info) (aggressive : Bool) (mode : String),
      (∀ c : String, 1/5 ≤ colorMult c ∧ colorMult c ≤ 1) ∧
      2 ≤ normScore info mode ∧
      normScore info mode ≤ 10 ∧
      2 ≤ (compute_score info aggressive mode).1 ∧
      max 0 (min 10 (finalPre info aggressive mode)) =
        min 10 (finalPre info aggressive mode) ∧
      min 10 (finalPre info false mode) = finalPre info false mode := by
  intro info aggressive mode
  have hmult : ∀ c : String, 1/5 ≤ colorMult c ∧ colorMult c ≤ 1 := by
    intro c
    unfold colorMult
    split_ifs <;> norm_num
  have h1 := hmult (valColor info)
  have h2 := hmult (growthColor info)
  have h3 := hmult (marginsColor info)
  have h4 := hmult (balanceColor info)
  have hw : weightFor mode = ⟨4, 2, 3, 3⟩ ∨ weightFor mode = ⟨2, 4, 1, 1⟩ ∨
      weightFor mode = ⟨3, 3, 2, 2⟩ := by
    unfold weightFor
    split_ifs <;> simp
  have hnorm : 2 ≤ normScore info mode ∧ normScore info mode ≤ 10 := by
    unfold normScore rawScore maxscore
    rcases hw with h | h | h <;> rw [h] <;> dsimp only <;> constructor <;>
      [linarith [h1.1, h2.1, h3.1, h4.1]; linarith [h1.2, h2.2, h3.2, h4.2];
       linarith [h1.1, h2.1, h3.1, h4.1]; linarith [h1.2, h2.2, h3.2, h4.2];
       linarith [h1.1, h2.1, h3.1, h4.1]; linarith [h1.2, h2.2, h3.2, h4.2]]
  have hfalse : finalPre info false mode = normScore info mode := rfl
  have hfin2 : 2 ≤ finalPre info aggressive mode := by
    unfold finalPre
    cases aggressive
    · simpa using hnorm.1
    · simp only [if_true]
      linarith [hnorm.1]
  have hmin2 : (2 : ℚ) ≤ min 10 (finalPre info aggressive mode) :=
    le_min (by norm_num) hfin2
  have hminmax : max 0 (min 10 (finalPre info aggressive mode)) =
      min 10 (finalPre info aggressive mode) := max_eq_right (by linarith)
  have hscore : 2 ≤ (compute_score info aggressive mode).1 := by
    show 2 ≤ round1 (finalClamped info aggressive mode)
    apply round1_ge_two
    unfold finalClamped
    rw [hminmax]
    exact hmin2
  exact ⟨hmult, hnorm.1, hnorm.2, hscore, hminmax,
    by rw [hfalse]; exact min_eq_right hnorm.2⟩

end AnalyseActions
